import Mathlib

set_option maxRecDepth 8000

/-!
Verification of the SQL_Subqueries tutorial notebook.

The repository is a single notebook that opens one sqlite3 connection to
`flights.db` and issues seven literal `SELECT` queries through
`pd.read_sql`.  This file embeds (1) the database schema the queries read
(`airports`, `routes`, `airlines`), (2) the semantics of each executed
query as a pure function on a database state, together with a statement
type `SqlStmt` that also contains genuinely mutating statements so that
read-only-ness is a fact and not a tautology, and (3) the notebook's code
cells as an imperative AST with an interpreter over an abstract engine,
used for the claims about literal query strings, the single connection,
error propagation, the connection never being closed, and cross-cell
bindings.
-/

/-- A SQL scalar value as returned by the sqlite3 engine through pandas:
text, integer, real (modelled as a rational), or NULL. -/
inductive Value where
  | vstr (s : String)
  | vint (n : Int)
  | vreal (q : Rat)
  | vnull
deriving DecidableEq, Repr

/-- One row of a query result. -/
abbrev Row := List Value

/-- A query result: the list of returned rows, in order. -/
abbrev ResultTable := List Row

/-- A row of the `airports` table (the columns the notebook's queries read). -/
structure Airport where
  id : Int
  name : String
  city : String
  country : String
deriving DecidableEq, Repr

/-- A row of the `routes` table (the columns the notebook's queries read). -/
structure Route where
  airline : String
  airline_id : Int
  source : String
  source_id : Int
  dest : String
  dest_id : Int
deriving DecidableEq, Repr

/-- A row of the `airlines` table (the columns the notebook's queries read). -/
structure Airline where
  id : Int
  name : String
deriving DecidableEq, Repr

/-- The state of the flights database: the three tables the notebook queries. -/
structure DB where
  airports : List Airport
  routes : List Route
  airlines : List Airline
deriving DecidableEq, Repr

/-- Stable insertion of a keyed-count pair into a list sorted by count
descending (models `ORDER BY COUNT() DESC`). -/
def insertCountDesc (x : α × Nat) : List (α × Nat) → List (α × Nat)
  | [] => [x]
  | y :: ys => if y.2 < x.2 then x :: y :: ys else y :: insertCountDesc x ys

/-- Sort a list of keyed counts by count, descending (models
`ORDER BY COUNT() DESC`). -/
def sortByCountDesc : List (α × Nat) → List (α × Nat)
  | [] => []
  | x :: xs => insertCountDesc x (sortByCountDesc xs)

/-- Stable insertion by a string key, ascending (models `ORDER BY` on a
text column). -/
def insertKeyAsc (key : α → String) (x : α) : List α → List α
  | [] => [x]
  | y :: ys => if key x < key y then x :: y :: ys else y :: insertKeyAsc key x ys

/-- Sort by a string key, ascending (models `ORDER BY` on a text column). -/
def sortByKeyAsc (key : α → String) : List α → List α
  | [] => []
  | x :: xs => insertKeyAsc key x (sortByKeyAsc key xs)

/-- `GROUP BY` on a list of key values: each distinct key paired with the
number of rows carrying it. -/
def groupCounts [DecidableEq α] (keys : List α) : List (α × Nat) :=
  keys.dedup.map (fun k => (k, keys.count k))

/-- Cell 7: `SELECT source AS depart_airport, COUNT() AS
number_of_departures FROM routes GROUP BY source`. -/
def qDepartures (db : DB) : ResultTable :=
  (groupCounts (db.routes.map Route.source)).map
    (fun p => [Value.vstr p.1, Value.vint p.2])

/-- Cell 9: `SELECT AVG(number_of_departures) FROM (SELECT source,
COUNT() AS number_of_departures FROM routes GROUP BY source)`.  AVG of an
empty set is NULL. -/
def qAvgDepartures (db : DB) : ResultTable :=
  let counts := (groupCounts (db.routes.map Route.source)).map (·.2)
  if counts.isEmpty then [[Value.vnull]]
  else [[Value.vreal (((counts.map (fun n => (n : Rat))).sum) / (counts.length : Rat))]]

/-- `GROUP BY country` over `airports`, with the count of airports per
country, sorted by count descending (shared by cells 11, 15 and 17). -/
def countryAirportCounts (db : DB) : List (String × Nat) :=
  sortByCountDesc (groupCounts (db.airports.map Airport.country))

/-- Cell 11: `SELECT country, COUNT() AS number_of_airports_in_country
FROM airports GROUP BY country ORDER BY number_of_airports_in_country
DESC LIMIT 5`. -/
def qTop5Countries (db : DB) : ResultTable :=
  ((countryAirportCounts db).take 5).map
    (fun p => [Value.vstr p.1, Value.vint p.2])

/-- The subquery of cells 15 and 17: `SELECT country FROM airports GROUP
BY country ORDER BY COUNT() DESC LIMIT 5`. -/
def top5CountryNames (db : DB) : List String :=
  ((countryAirportCounts db).take 5).map (·.1)

/-- `FROM routes AS rt LEFT JOIN airports AS ap ON rt.source_id = ap.id`:
each route paired with its matching airports, or `none` when no airport
matches. -/
def leftJoinSourceAirport (db : DB) : List (Route × Option Airport) :=
  db.routes.flatMap (fun r =>
    match db.airports.filter (fun a => a.id == r.source_id) with
    | [] => [(r, none)]
    | l => l.map (fun a => (r, some a)))

/-- The departure country of a left-join row (used as the `ORDER BY
depart_country` key; NULL rows never survive the `WHERE` filter). -/
def departCountryKey (p : Route × Option Airport) : String :=
  match p.2 with
  | some a => a.country
  | none => ""

/-- Cells 13, 15 and 17 share this shape: `SELECT rt.source, rt.dest,
ap.country FROM routes AS rt LEFT JOIN airports AS ap ON rt.source_id =
ap.id WHERE ap.country IN cs ORDER BY depart_country`. -/
def routesFromCountries (db : DB) (cs : List String) : ResultTable :=
  let joined := leftJoinSourceAirport db
  let filtered := joined.filter (fun p =>
    match p.2 with
    | some a => cs.contains a.country
    | none => false)
  (sortByKeyAsc departCountryKey filtered).map (fun p =>
    [Value.vstr p.1.source, Value.vstr p.1.dest,
     match p.2 with
     | some a => Value.vstr a.country
     | none => Value.vnull])

/-- Cell 13: the `WHERE ap.country IN (...)` filter with the five country
names entered by hand. -/
def manualCountries : List String :=
  ["United States", "Canada", "Germany", "Australia", "Russia"]

/-- Cell 13: routes filtered by the hand-entered country list. -/
def qRoutesManual (db : DB) : ResultTable :=
  routesFromCountries db manualCountries

/-- Cell 15: the same query with the country list produced by the
`WHERE`-clause subquery. -/
def qRoutesSubquery (db : DB) : ResultTable :=
  routesFromCountries db (top5CountryNames db)

/-- Cell 17: the CTE form `WITH top_5_countries AS (...) SELECT ... WHERE
ap.country IN top_5_countries`. -/
def qRoutesCTE (db : DB) : ResultTable :=
  let top_5_countries := top5CountryNames db
  routesFromCountries db top_5_countries

/-- The exercise cell's CTE: `SELECT source_id FROM routes GROUP BY
source_id ORDER BY COUNT() DESC LIMIT 3`. -/
def top3AirportIds (db : DB) : List Int :=
  ((sortByCountDesc (groupCounts (db.routes.map Route.source_id))).take 3).map (·.1)

/-- The exercise cell's joined name list before `DISTINCT`: `FROM airlines
AS a JOIN routes AS r ON a.id = r.airline_id WHERE r.source_id IN
top_3_airports OR r.dest_id IN top_3_airports`, selecting `a.name`, then
deduplicated by `DISTINCT`. -/
def servingAirlineNames (db : DB) : List String :=
  let top_3_airports := top3AirportIds db
  (db.airlines.flatMap (fun a =>
    (db.routes.filter (fun r =>
      a.id == r.airline_id &&
        (top_3_airports.contains r.source_id ||
         top_3_airports.contains r.dest_id))).map (fun _ => a.name))).dedup

/-- Cell 19 (the exercise): `WITH top_3_airports AS (...) SELECT DISTINCT
a.name FROM airlines AS a JOIN routes AS r ON a.id = r.airline_id WHERE
r.source_id IN top_3_airports OR r.dest_id IN top_3_airports`. -/
def qAirlinesTop3 (db : DB) : ResultTable :=
  (servingAirlineNames db).map (fun n => [Value.vstr n])

/-- A SQL statement submitted to the engine.  `selectStmt` carries the
read-only semantics of a `SELECT`; the remaining constructors are the
mutating statement forms (INSERT / UPDATE / DELETE / DROP) that the
engine also accepts, so that "every notebook statement is read-only" is a
property of the notebook and not of the statement type. -/
inductive SqlStmt where
  | selectStmt (run : DB → ResultTable)
  | insertRoute (r : Route)
  | updateAirlineName (i : Int) (newName : String)
  | deleteRoutesFrom (src : String)
  | dropRoutes

/-- Execute one SQL statement against the database, returning the new
database state and the result table. -/
def exec : SqlStmt → DB → DB × ResultTable
  | SqlStmt.selectStmt run, db => (db, run db)
  | SqlStmt.insertRoute r, db => ({ db with routes := db.routes ++ [r] }, [])
  | SqlStmt.updateAirlineName i n, db =>
      ({ db with airlines := db.airlines.map (fun a =>
          if a.id == i then { a with name := n } else a) }, [])
  | SqlStmt.deleteRoutesFrom s, db =>
      ({ db with routes := db.routes.filter (fun r => !(r.source == s)) }, [])
  | SqlStmt.dropRoutes, db => ({ db with routes := [] }, [])

/-- The seven statements the notebook actually executes, in order. -/
def notebookQueries : List SqlStmt :=
  [SqlStmt.selectStmt qDepartures,
   SqlStmt.selectStmt qAvgDepartures,
   SqlStmt.selectStmt qTop5Countries,
   SqlStmt.selectStmt qRoutesManual,
   SqlStmt.selectStmt qRoutesSubquery,
   SqlStmt.selectStmt qRoutesCTE,
   SqlStmt.selectStmt qAirlinesTop3]

/-- Run a list of SQL statements in order, keeping only the final
database state. -/
def execList (l : List SqlStmt) (db : DB) : DB :=
  l.foldl (fun d s => (exec s d).1) db

/-- The literal SQL text of cell 7 (FROM-subquery lesson, first query). -/
def q7sql : String :=
"\n    SELECT \n        source AS depart_airport\n        , COUNT() AS number_of_departures\n    FROM\n        routes\n    GROUP BY\n        source\n"

/-- The literal SQL text of cell 9 (AVG over a FROM-clause subquery). -/
def q9sql : String :=
"\n    SELECT AVG(number_of_departures)\n    FROM \n        (SELECT \n            source AS depart_airport\n            , COUNT() AS number_of_departures\n        FROM\n            routes\n        GROUP BY\n            source)\n"

/-- The literal SQL text of cell 11 (five countries with the most airports). -/
def q11sql : String :=
"\n    SELECT \n        country,  \n        COUNT() AS number_of_airports_in_country\n    FROM\n        airports\n    GROUP BY\n        country\n    ORDER BY\n        number_of_airports_in_country DESC\n    LIMIT 5\n"

/-- The literal SQL text of cell 13 (hand-entered IN list). -/
def q13sql : String :=
"\n    SELECT \n        rt.source AS depart_airport, \n        rt.dest AS destination_airport, \n        ap.country AS depart_country\n    FROM\n        routes AS rt\n    LEFT JOIN airports AS ap\n        ON rt.source_id = ap.id\n    WHERE ap.country IN (\"United States\", \"Canada\", \"Germany\", \"Australia\", \"Russia\")\n    ORDER BY depart_country\n"

/-- The literal SQL text of cell 15 (WHERE-clause subquery). -/
def q15sql : String :=
"\n    SELECT \n        rt.source AS depart_airport, \n        rt.dest AS destination_airport, \n        ap.country AS depart_country\n    FROM\n        routes AS rt\n    LEFT JOIN airports AS ap\n        ON rt.source_id = ap.id\n    WHERE ap.country IN \n    -- Subquery to get the 5 countries with the most airports\n    \n        (SELECT country \n         FROM airports\n         GROUP BY country\n         ORDER BY COUNT() DESC\n         LIMIT 5)\n    \n    ORDER BY depart_country\n"

/-- The literal SQL text of cell 17 (CTE form of the cell 15 query). -/
def q17sql : String :=
"\n\n    WITH top_5_countries AS \n        (SELECT country \n         FROM airports\n         GROUP BY country\n         ORDER BY COUNT() DESC\n         LIMIT 5) \n    \n    SELECT \n        rt.source AS depart_airport, \n        rt.dest AS destination_airport, \n        ap.country AS depart_country\n    FROM\n        routes AS rt\n    LEFT JOIN airports AS ap\n        ON rt.source_id = ap.id\n    WHERE ap.country IN top_5_countries\n    \n    ORDER BY depart_country\n"

/-- The literal SQL text of cell 19 (the exercise solution bound to the
`query` variable). -/
def q19sql : String :=
"\n        WITH top_3_airports AS\n            (SELECT source_id\n            FROM routes\n            GROUP BY source_id\n            ORDER BY COUNT() DESC\n            LIMIT 3)\n        \n        SELECT DISTINCT a.name\n        FROM airlines AS a\n        JOIN routes AS r\n            ON a.id = r.airline_id\n        WHERE r.source_id IN top_3_airports OR r.dest_id IN top_3_airports\n        ;\n        "

/-- A Python expression that can appear where the notebook supplies a
query string.  Besides string literals and variables, the constructors
cover the ways a query could be built at runtime (concatenation, string
formatting / interpolation, user input), none of which the notebook uses. -/
inductive PyExpr where
  | strLit (s : String)
  | var (x : String)
  | concat (a b : PyExpr)
  | formatArg (template : String) (arg : PyExpr)
  | inputCall
deriving DecidableEq, Repr

/-- A statement of a notebook code cell.  `readSqlDisplay` is
`pd.read_sql(q, c)` as a bare expression statement (result displayed);
`readSqlAssign` would bind the resulting DataFrame to a variable;
`closeCall` is `c.close()`; `tryExcept` is a try/except block.  The last
three constructors never occur in the notebook. -/
inductive Stmt where
  | importAs (x : String) (m : String)
  | connectAssign (x : String) (dbfile : String)
  | assignExpr (x : String) (e : PyExpr)
  | readSqlDisplay (q : PyExpr) (c : String) (params : Option PyExpr)
  | readSqlAssign (x : String) (q : PyExpr) (c : String) (params : Option PyExpr)
  | closeCall (c : String)
  | tryExcept (body handler : Stmt)
deriving DecidableEq, Repr

/-- Cell 3: `import pandas as pd` and `import sqlite3`. -/
def importsCell : List Stmt :=
  [Stmt.importAs "pd" "pandas", Stmt.importAs "sqlite3" "sqlite3"]

/-- Cell 5: `conn = sqlite3.connect('flights.db')`. -/
def connectCell : List Stmt :=
  [Stmt.connectAssign "conn" "flights.db"]

/-- Cell 7: `pd.read_sql('''...''', conn)`. -/
def q7cell : List Stmt :=
  [Stmt.readSqlDisplay (PyExpr.strLit q7sql) "conn" none]

/-- Cell 9: `pd.read_sql('''...''', conn)`. -/
def q9cell : List Stmt :=
  [Stmt.readSqlDisplay (PyExpr.strLit q9sql) "conn" none]

/-- Cell 11: `pd.read_sql('''...''', conn)`. -/
def q11cell : List Stmt :=
  [Stmt.readSqlDisplay (PyExpr.strLit q11sql) "conn" none]

/-- Cell 13: `pd.read_sql('''...''', conn)`. -/
def q13cell : List Stmt :=
  [Stmt.readSqlDisplay (PyExpr.strLit q13sql) "conn" none]

/-- Cell 15: `pd.read_sql('''...''', conn)`. -/
def q15cell : List Stmt :=
  [Stmt.readSqlDisplay (PyExpr.strLit q15sql) "conn" none]

/-- Cell 17: `pd.read_sql('''...''', conn)`. -/
def q17cell : List Stmt :=
  [Stmt.readSqlDisplay (PyExpr.strLit q17sql) "conn" none]

/-- Cell 19: `query = '''...'''` followed by `pd.read_sql(query, conn)`. -/
def q19cell : List Stmt :=
  [Stmt.assignExpr "query" (PyExpr.strLit q19sql),
   Stmt.readSqlDisplay (PyExpr.var "query") "conn" none]

/-- The nine code cells of the notebook, in execution order. -/
def notebookCells : List (List Stmt) :=
  [importsCell, connectCell, q7cell, q9cell, q11cell, q13cell, q15cell,
   q17cell, q19cell]

/-- The sqlite3 engine as seen through `pd.read_sql`: given a query
string and the database state, it either fails with an error message or
returns a (possibly updated) database state and a result table. -/
abbrev Engine := String → DB → Except String (DB × ResultTable)

/-- Interpreter state for the notebook: the database behind the
connection, whether the connection is open, the string-valued Python
bindings, and the result tables displayed so far. -/
structure KState where
  db : DB
  connOpen : Bool
  strEnv : List (String × String)
  tables : List ResultTable

/-- Resolve a Python expression to the string it evaluates to, when that
string is determined by the literal bindings in scope.  Runtime-dependent
constructions (formatting, user input) resolve to `none`. -/
def resolveExpr (env : List (String × String)) : PyExpr → Option String
  | PyExpr.strLit s => some s
  | PyExpr.var x => (env.find? (fun p => p.1 == x)).map (·.2)
  | PyExpr.concat a b =>
      match resolveExpr env a, resolveExpr env b with
      | some s, some t => some (s ++ t)
      | _, _ => none
  | PyExpr.formatArg _ _ => none
  | PyExpr.inputCall => none

/-- Execute one notebook statement.  A failing engine call aborts the
cell with the engine's error; a `tryExcept` swallows an error of its body
and runs the handler instead. -/
def execStmt (engine : Engine) : Stmt → KState → Except String KState
  | Stmt.importAs _ _, st => Except.ok st
  | Stmt.connectAssign _ _, st => Except.ok { st with connOpen := true }
  | Stmt.assignExpr x e, st =>
      match resolveExpr st.strEnv e with
      | some s => Except.ok { st with strEnv := (x, s) :: st.strEnv }
      | none => Except.ok st
  | Stmt.readSqlDisplay q _ _, st =>
      match resolveExpr st.strEnv q with
      | some s =>
          match engine s st.db with
          | Except.ok (db', t) =>
              Except.ok { st with db := db', tables := st.tables ++ [t] }
          | Except.error e => Except.error e
      | none => Except.error "could not resolve query expression"
  | Stmt.readSqlAssign _ q _ _, st =>
      match resolveExpr st.strEnv q with
      | some s =>
          match engine s st.db with
          | Except.ok (db', t) =>
              Except.ok { st with db := db', tables := st.tables ++ [t] }
          | Except.error e => Except.error e
      | none => Except.error "could not resolve query expression"
  | Stmt.closeCall _, st => Except.ok { st with connOpen := false }
  | Stmt.tryExcept body handler, st =>
      match execStmt engine body st with
      | Except.error _ => execStmt engine handler st
      | Except.ok st' => Except.ok st'

/-- Execute the statements of one cell in order, stopping at the first
error. -/
def execStmts (engine : Engine) : List Stmt → KState → Except String KState
  | [], st => Except.ok st
  | s :: rest, st =>
      match execStmt engine s st with
      | Except.ok st' => execStmts engine rest st'
      | Except.error e => Except.error e

/-- The query string a cell submits, resolved symbolically from the
cell's own literal bindings (`none` when the cell executes no query). -/
def cellQueryAux (env : List (String × String)) : List Stmt → Option String
  | [] => none
  | Stmt.assignExpr x e :: rest =>
      match resolveExpr env e with
      | some s => cellQueryAux ((x, s) :: env) rest
      | none => cellQueryAux env rest
  | Stmt.readSqlDisplay q _ _ :: _ => resolveExpr env q
  | Stmt.readSqlAssign _ q _ _ :: _ => resolveExpr env q
  | _ :: rest => cellQueryAux env rest

/-- The query string a cell submits (`none` when it executes none). -/
def cellQuery (c : List Stmt) : Option String := cellQueryAux [] c

/-- `true` when a statement is not a try/except block. -/
def stmtNoTry : Stmt → Bool
  | Stmt.tryExcept _ _ => false
  | _ => true

/-- `true` when a statement never closes a connection, looking inside
try/except blocks. -/
def stmtNoClose : Stmt → Bool
  | Stmt.closeCall _ => false
  | Stmt.tryExcept body handler => stmtNoClose body && stmtNoClose handler
  | _ => true

/-- All `sqlite3.connect` calls of a statement, as (bound name, database
file) pairs. -/
def stmtConnects : Stmt → List (String × String)
  | Stmt.connectAssign x f => [(x, f)]
  | Stmt.tryExcept body handler => stmtConnects body ++ stmtConnects handler
  | _ => []

/-- The connection argument of every `pd.read_sql` call in a statement. -/
def stmtReadSqlConns : Stmt → List String
  | Stmt.readSqlDisplay _ c _ => [c]
  | Stmt.readSqlAssign _ _ c _ => [c]
  | Stmt.tryExcept body handler => stmtReadSqlConns body ++ stmtReadSqlConns handler
  | _ => []

/-- The variables a Python expression reads. -/
def exprUses : PyExpr → List String
  | PyExpr.strLit _ => []
  | PyExpr.var x => [x]
  | PyExpr.concat a b => exprUses a ++ exprUses b
  | PyExpr.formatArg _ arg => exprUses arg
  | PyExpr.inputCall => []

/-- The bindings a statement defines. -/
def stmtDefs : Stmt → List String
  | Stmt.importAs x _ => [x]
  | Stmt.connectAssign x _ => [x]
  | Stmt.assignExpr x _ => [x]
  | Stmt.readSqlAssign x _ _ _ => [x]
  | Stmt.tryExcept body handler => stmtDefs body ++ stmtDefs handler
  | _ => []

/-- The bindings a statement consumes, including the module receivers of
the calls it makes (`pd.read_sql` reads `pd`; `sqlite3.connect` reads
`sqlite3`). -/
def stmtUses : Stmt → List String
  | Stmt.importAs _ _ => []
  | Stmt.connectAssign _ _ => ["sqlite3"]
  | Stmt.assignExpr _ e => exprUses e
  | Stmt.readSqlDisplay q c p =>
      "pd" :: c :: (exprUses q ++ (match p with
        | some e => exprUses e
        | none => []))
  | Stmt.readSqlAssign _ q c p =>
      "pd" :: c :: (exprUses q ++ (match p with
        | some e => exprUses e
        | none => []))
  | Stmt.closeCall c => [c]
  | Stmt.tryExcept body handler => stmtUses body ++ stmtUses handler

/-- The bindings a cell defines. -/
def cellDefs (c : List Stmt) : List String := c.flatMap stmtDefs

/-- The bindings a cell consumes. -/
def cellUses (c : List Stmt) : List String := c.flatMap stmtUses

/-- The bindings defined in some cell and consumed by a strictly later
cell. -/
def crossDefs : List (List Stmt) → List String
  | [] => []
  | c :: rest =>
      (cellDefs c).filter (fun x => rest.any (fun c2 => (cellUses c2).contains x))
        ++ crossDefs rest

/-- The bindings of the notebook that are defined in one cell and
consumed by a later one. -/
def crossCellBindings : List String := crossDefs notebookCells

/-- Checks that every query the cell submits is a compile-time literal:
statements are only imports, the connect call, assignments of string
literals, and `pd.read_sql` of a literal (or a variable bound earlier in
the cell to a literal) with no params argument. -/
def stmtsLiteralOnly (env : List String) : List Stmt → Bool
  | [] => true
  | Stmt.importAs _ _ :: rest => stmtsLiteralOnly env rest
  | Stmt.connectAssign _ _ :: rest => stmtsLiteralOnly env rest
  | Stmt.assignExpr x e :: rest =>
      match e with
      | PyExpr.strLit _ => stmtsLiteralOnly (x :: env) rest
      | _ => false
  | Stmt.readSqlDisplay q _ p :: rest =>
      (match q with
       | PyExpr.strLit _ => true
       | PyExpr.var x => env.contains x
       | _ => false) && p.isNone && stmtsLiteralOnly env rest
  | _ :: _ => false

/-- `true` when the pattern occurs at the head of the character list. -/
def startsWithChars : List Char → List Char → Bool
  | [], _ => true
  | _ :: _, [] => false
  | a :: as, b :: bs => a == b && startsWithChars as bs

/-- The number of positions at which the pattern occurs in the text. -/
def countOcc (pat : List Char) : List Char → Nat
  | [] => 0
  | c :: rest =>
      (if startsWithChars pat (c :: rest) then 1 else 0) + countOcc pat rest

/-- How many times a CTE name occurs in a query text (its defining
occurrence included). -/
def cteOccurrenceCount (name sql : String) : Nat :=
  countOcc name.data sql.data

/-- How many times a CTE is referenced in the query that follows its
WITH-clause definition: all occurrences minus the defining one. -/
def cteReferenceCount (name sql : String) : Nat :=
  cteOccurrenceCount name sql - 1

/-- The CTEs defined by the notebook's executed queries: name and the
full text of the query defining it. -/
def notebookCTEs : List (String × String) :=
  [("top_5_countries", q17sql), ("top_3_airports", q19sql)]

/-- A small concrete state of the flights database, used to witness the
hypotheses of the proved theorems. -/
def sampleDB : DB :=
  { airports :=
      [{ id := 1, name := "Hartsfield Jackson", city := "Atlanta", country := "United States" },
       { id := 2, name := "Pearson", city := "Toronto", country := "Canada" },
       { id := 3, name := "Frankfurt Main", city := "Frankfurt", country := "Germany" }],
    routes :=
      [{ airline := "DL", airline_id := 10, source := "ATL", source_id := 1,
         dest := "YYZ", dest_id := 2 },
       { airline := "AC", airline_id := 11, source := "YYZ", source_id := 2,
         dest := "FRA", dest_id := 3 },
       { airline := "DL", airline_id := 10, source := "ATL", source_id := 1,
         dest := "FRA", dest_id := 3 }],
    airlines :=
      [{ id := 10, name := "Delta Air Lines" },
       { id := 11, name := "Air Canada" }] }

/-- A database state in which six countries have one airport each, so
the `ORDER BY COUNT() DESC LIMIT 5` of the top-5-countries query cuts a
tie; used to witness the determinism theorem at a tie. -/
def tieDB : DB :=
  { airports :=
      [{ id := 1, name := "A1", city := "C1", country := "United States" },
       { id := 2, name := "A2", city := "C2", country := "Canada" },
       { id := 3, name := "A3", city := "C3", country := "Germany" },
       { id := 4, name := "A4", city := "C4", country := "Australia" },
       { id := 5, name := "A5", city := "C5", country := "Russia" },
       { id := 6, name := "A6", city := "C6", country := "France" }],
    routes :=
      [{ airline := "AF", airline_id := 20, source := "CDG", source_id := 6,
         dest := "JFK", dest_id := 1 }],
    airlines := [{ id := 20, name := "Air France" }] }

/-- An engine that accepts every query, changes nothing, and returns an
empty table. -/
def okEngine : Engine := fun _ db => Except.ok (db, [])

/-- An engine that rejects every query with a fixed syntax error. -/
def failEngine : Engine := fun _ _ => Except.error "syntax error"

/-- The interpreter state at the start of a cell: sample database behind
an open connection, no bindings, nothing displayed yet. -/
def openState : KState :=
  { db := sampleDB, connOpen := true, strEnv := [], tables := [] }

/-- The state after running cell 7 under `okEngine` from `openState`. -/
def stateAfterQ7 : KState :=
  match execStmts okEngine q7cell openState with
  | Except.ok st => st
  | Except.error _ => openState

/-- Every statement the notebook executes against the engine is a
`SELECT`. -/
theorem mem_notebookQueries_shape :
    ∀ s ∈ notebookQueries, ∃ f, s = SqlStmt.selectStmt f := by
  intro s hs
  simp [notebookQueries] at hs
  rcases hs with h | h | h | h | h | h | h <;> exact ⟨_, h⟩

theorem memQDepartures : SqlStmt.selectStmt qDepartures ∈ notebookQueries := by
  unfold notebookQueries
  exact List.Mem.head _

theorem memQTop5 : SqlStmt.selectStmt qTop5Countries ∈ notebookQueries := by
  unfold notebookQueries
  exact List.Mem.tail _ (List.Mem.tail _ (List.Mem.head _))

theorem memQAirlines : SqlStmt.selectStmt qAirlinesTop3 ∈ notebookQueries := by
  unfold notebookQueries
  exact List.Mem.tail _ (List.Mem.tail _ (List.Mem.tail _ (List.Mem.tail _
    (List.Mem.tail _ (List.Mem.tail _ (List.Mem.head _))))))

theorem q7cell_mem : q7cell ∈ notebookCells := by
  unfold notebookCells
  exact List.Mem.tail _ (List.Mem.tail _ (List.Mem.head _))

/-- Running any sequence of the notebook's statements leaves the
database state unchanged. -/
theorem execList_id :
    ∀ l : List SqlStmt, (∀ s ∈ l, s ∈ notebookQueries) →
      ∀ db : DB, execList l db = db := by
  intro l
  induction l with
  | nil => intro _ db; rfl
  | cons a t ih =>
    intro h db
    obtain ⟨f, rfl⟩ := mem_notebookQueries_shape a (h a (List.Mem.head _))
    have hstep : execList (SqlStmt.selectStmt f :: t) db = execList t db := rfl
    rw [hstep]
    exact ih (fun s hs => h s (List.Mem.tail _ hs)) db

/-- Claim C1: every SQL query the notebook executes is a literal,
compile-time constant string handed unchanged to the engine via
`pd.read_sql`: no cell builds a query from runtime data, interpolation,
parameters or user input, and every cell only submits query strings and
displays the results. -/
theorem notebook_queries_literal :
    notebookCells.all (fun c => stmtsLiteralOnly [] c) = true := by
  rfl

/-- Claim C2: every statement the notebook executes is read-only: each of
the three tables of the database is identical before and after each
execution. -/
theorem notebook_queries_readonly :
    ∀ s ∈ notebookQueries, ∀ db : DB,
      (exec s db).1.airports = db.airports ∧
      (exec s db).1.routes = db.routes ∧
      (exec s db).1.airlines = db.airlines := by
  intro s hs db
  obtain ⟨f, rfl⟩ := mem_notebookQueries_shape s hs
  exact ⟨rfl, rfl, rfl⟩

/-- Witness for C2: the first notebook query, executed on a concrete
database state, leaves all three tables unchanged. -/
theorem notebook_queries_readonly_witness :
    (exec (SqlStmt.selectStmt qDepartures) sampleDB).1.airports = sampleDB.airports ∧
    (exec (SqlStmt.selectStmt qDepartures) sampleDB).1.routes = sampleDB.routes ∧
    (exec (SqlStmt.selectStmt qDepartures) sampleDB).1.airlines = sampleDB.airlines :=
  notebook_queries_readonly (SqlStmt.selectStmt qDepartures) memQDepartures sampleDB

/-- Claim C3: the notebook opens exactly one connection, to the local
file `flights.db`, bound to `conn`; all seven `pd.read_sql` calls use
that handle, and `conn` is never rebound. -/
theorem single_connection_flights_db :
    notebookCells.flatMap (fun c => c.flatMap stmtConnects) = [("conn", "flights.db")] ∧
    notebookCells.flatMap (fun c => c.flatMap stmtReadSqlConns) =
      ["conn", "conn", "conn", "conn", "conn", "conn", "conn"] ∧
    (notebookCells.flatMap cellDefs).count "conn" = 1 := by
  exact ⟨rfl, rfl, rfl⟩

/-- Claim C4: no cell contains a try/except block, and whenever the
engine fails on the query a cell submits, executing the cell fails with
exactly that error. -/
theorem engine_errors_propagate :
    notebookCells.all (fun c => c.all stmtNoTry) = true ∧
    ∀ c ∈ notebookCells, ∀ engine : Engine, ∀ st : KState, ∀ q e : String,
      cellQuery c = some q → engine q st.db = Except.error e →
      execStmts engine c st = Except.error e := by
  constructor
  · rfl
  · intro c hc engine st q e hq he
    simp [notebookCells] at hc
    rcases hc with rfl | rfl | rfl | rfl | rfl | rfl | rfl | rfl | rfl
    · simp [importsCell, cellQuery, cellQueryAux] at hq
    · simp [connectCell, cellQuery, cellQueryAux] at hq
    · simp [q7cell, cellQuery, cellQueryAux, resolveExpr] at hq
      subst hq
      simp [q7cell, execStmts, execStmt, resolveExpr, he]
    · simp [q9cell, cellQuery, cellQueryAux, resolveExpr] at hq
      subst hq
      simp [q9cell, execStmts, execStmt, resolveExpr, he]
    · simp [q11cell, cellQuery, cellQueryAux, resolveExpr] at hq
      subst hq
      simp [q11cell, execStmts, execStmt, resolveExpr, he]
    · simp [q13cell, cellQuery, cellQueryAux, resolveExpr] at hq
      subst hq
      simp [q13cell, execStmts, execStmt, resolveExpr, he]
    · simp [q15cell, cellQuery, cellQueryAux, resolveExpr] at hq
      subst hq
      simp [q15cell, execStmts, execStmt, resolveExpr, he]
    · simp [q17cell, cellQuery, cellQueryAux, resolveExpr] at hq
      subst hq
      simp [q17cell, execStmts, execStmt, resolveExpr, he]
    · simp [q19cell, cellQuery, cellQueryAux, resolveExpr, List.find?] at hq
      subst hq
      simp [q19cell, execStmts, execStmt, resolveExpr, List.find?, he]

/-- Witness for C4: a failing engine makes cell 7 fail with the engine's
own error message. -/
theorem engine_errors_propagate_witness :
    execStmts failEngine q7cell openState = Except.error "syntax error" :=
  engine_errors_propagate.2 q7cell q7cell_mem failEngine openState q7sql
    "syntax error" rfl rfl

/-- Claim C5: each notebook query is deterministic with respect to the
dataset: executing the same statement twice in sequence from any database
state returns exactly the same rows both times. -/
theorem queries_deterministic :
    ∀ s ∈ notebookQueries, ∀ db : DB,
      (exec s ((exec s db).1)).2 = (exec s db).2 := by
  intro s hs db
  obtain ⟨f, rfl⟩ := mem_notebookQueries_shape s hs
  rfl

/-- Witness for C5: the top-5-countries query, on a database state where
six countries tie at one airport each so `LIMIT 5` cuts a tie, returns
the same rows on both of two consecutive executions. -/
theorem queries_deterministic_witness :
    (exec (SqlStmt.selectStmt qTop5Countries)
        ((exec (SqlStmt.selectStmt qTop5Countries) tieDB).1)).2 =
      (exec (SqlStmt.selectStmt qTop5Countries) tieDB).2 :=
  queries_deterministic (SqlStmt.selectStmt qTop5Countries) memQTop5 tieDB

/-- Counterexample to C6: the exercise cell's CTE `top_3_airports` is
referenced twice in the query following its WITH-clause definition (once
for `source_id` and once for `dest_id`), not exactly once. -/
theorem cte_single_reference_counterexample :
    ("top_3_airports", q19sql) ∈ notebookCTEs ∧
    cteReferenceCount "top_3_airports" q19sql ≠ 1 ∧
    cteReferenceCount "top_3_airports" q19sql = 2 := by
  refine ⟨?_, ?_, ?_⟩
  · unfold notebookCTEs
    exact List.Mem.tail _ (List.Mem.head _)
  · decide
  · decide

/-- Claim C6 (amended): every CTE defined in the notebook's queries is
referenced at least once in the query following its definition:
`top_5_countries` exactly once, and the exercise cell's `top_3_airports`
exactly twice. -/
theorem cte_reference_counts :
    notebookCTEs.map (fun p => cteReferenceCount p.1 p.2) = [1, 2] := by
  decide

/-- Counterexample to C7: the module alias `pd` is a binding defined in
the imports cell and consumed by later cells, so `conn` is not the only
binding shared between cells. -/
theorem cross_cell_binding_counterexample :
    "pd" ∈ crossCellBindings ∧ "pd" ≠ "conn" := by
  decide

/-- Claim C7 (amended): the only bindings defined in one cell and
consumed by a later cell are the imported module aliases `pd` and
`sqlite3` and the connection handle `conn`; in particular no query
string or query result crosses cells (the exercise cell's `query`
variable is defined and consumed within that one cell). -/
theorem cross_cell_bindings_amended :
    crossCellBindings = ["pd", "sqlite3", "conn"] := by
  decide

/-- Claim C8: the notebook's query executions are mutually independent:
running any sequence of the notebook's statements first never changes the
rows a statement returns. -/
theorem queries_independent :
    ∀ pre : List SqlStmt, (∀ s ∈ pre, s ∈ notebookQueries) →
      ∀ q ∈ notebookQueries, ∀ db : DB,
        (exec q (execList pre db)).2 = (exec q db).2 := by
  intro pre h q hq db
  rw [execList_id pre h db]

/-- Witness for C8: the exercise query returns the same rows on the
sample database whether or not the first query ran before it. -/
theorem queries_independent_witness :
    (exec (SqlStmt.selectStmt qAirlinesTop3)
        (execList [SqlStmt.selectStmt qDepartures] sampleDB)).2 =
      (exec (SqlStmt.selectStmt qAirlinesTop3) sampleDB).2 :=
  queries_independent [SqlStmt.selectStmt qDepartures]
    (fun s hs => by
      rw [List.mem_singleton] at hs
      rw [hs]
      exact memQDepartures)
    (SqlStmt.selectStmt qAirlinesTop3) memQAirlines sampleDB

/-- Claim C9: no cell ever closes the connection; the connect cell leaves
the connection open, and every notebook cell preserves an open
connection, so at every point after the connect call the connection is
open. -/
theorem connection_stays_open :
    notebookCells.all (fun c => c.all stmtNoClose) = true ∧
    (∀ engine : Engine, ∀ st st' : KState,
      execStmts engine connectCell st = Except.ok st' → st'.connOpen = true) ∧
    (∀ c ∈ notebookCells, ∀ engine : Engine, ∀ st st' : KState,
      st.connOpen = true → execStmts engine c st = Except.ok st' →
      st'.connOpen = true) := by
  refine ⟨rfl, ?_, ?_⟩
  · intro engine st st' h
    simp [connectCell, execStmts, execStmt] at h
    rw [← h]
  · intro c hc engine st st' hopen h
    simp [notebookCells] at hc
    rcases hc with rfl | rfl | rfl | rfl | rfl | rfl | rfl | rfl | rfl
    · simp [importsCell, execStmts, execStmt] at h
      rw [← h]
      exact hopen
    · simp [connectCell, execStmts, execStmt] at h
      rw [← h]
    · cases hE : engine q7sql st.db with
      | error e => simp [q7cell, execStmts, execStmt, resolveExpr, hE] at h
      | ok p =>
        simp [q7cell, execStmts, execStmt, resolveExpr, hE] at h
        rw [← h]
        exact hopen
    · cases hE : engine q9sql st.db with
      | error e => simp [q9cell, execStmts, execStmt, resolveExpr, hE] at h
      | ok p =>
        simp [q9cell, execStmts, execStmt, resolveExpr, hE] at h
        rw [← h]
        exact hopen
    · cases hE : engine q11sql st.db with
      | error e => simp [q11cell, execStmts, execStmt, resolveExpr, hE] at h
      | ok p =>
        simp [q11cell, execStmts, execStmt, resolveExpr, hE] at h
        rw [← h]
        exact hopen
    · cases hE : engine q13sql st.db with
      | error e => simp [q13cell, execStmts, execStmt, resolveExpr, hE] at h
      | ok p =>
        simp [q13cell, execStmts, execStmt, resolveExpr, hE] at h
        rw [← h]
        exact hopen
    · cases hE : engine q15sql st.db with
      | error e => simp [q15cell, execStmts, execStmt, resolveExpr, hE] at h
      | ok p =>
        simp [q15cell, execStmts, execStmt, resolveExpr, hE] at h
        rw [← h]
        exact hopen
    · cases hE : engine q17sql st.db with
      | error e => simp [q17cell, execStmts, execStmt, resolveExpr, hE] at h
      | ok p =>
        simp [q17cell, execStmts, execStmt, resolveExpr, hE] at h
        rw [← h]
        exact hopen
    · cases hE : engine q19sql st.db with
      | error e =>
        simp [q19cell, execStmts, execStmt, resolveExpr, List.find?, hE] at h
      | ok p =>
        simp [q19cell, execStmts, execStmt, resolveExpr, List.find?, hE] at h
        rw [← h]
        exact hopen

/-- Witness for C9: running cell 7 under an accepting engine from an
open-connection state leaves the connection open. -/
theorem connection_stays_open_witness : stateAfterQ7.connOpen = true :=
  connection_stays_open.2.2 q7cell q7cell_mem okEngine openState stateAfterQ7
    rfl rfl

/-- Claim C10: for every database state, the result of the exercise query
contains no duplicate rows: each airline name appears at most once,
because the query selects `DISTINCT a.name`. -/
theorem exercise_distinct_no_duplicates :
    ∀ db : DB, (qAirlinesTop3 db).Nodup ∧
      ∀ r : Row, ¬ List.Duplicate r (qAirlinesTop3 db) := by
  intro db
  have hinj : Function.Injective (fun n : String => ([Value.vstr n] : Row)) := by
    intro a b hab
    simpa using hab
  have h1 : (servingAirlineNames db).Nodup := List.nodup_dedup _
  have hnd : (qAirlinesTop3 db).Nodup := h1.map hinj
  exact ⟨hnd, fun r => List.nodup_iff_forall_not_duplicate.mp hnd r⟩
